import Mathlib

/-!
Shallow embedding of the heurist-python-sdk workflow lifecycle
(`heurist_python_sdk/workflow/__init__.py`), the random hex generator
(`heurist_python_sdk/utils.py`) and the image-generation seed handling
(`heurist_python_sdk/images/__init__.py`).

Python strings are modelled as `List Char`, Python ints as `Int` (or `Nat`
where the source value is provably non-negative), the clock
`asyncio.get_event_loop().time() * 1000` as integer millisecond readings
(every claim about the driver is an ordering or counting claim, insensitive
to sub-millisecond fractions of the float clock), and the ambient
randomness as explicit oracle arguments.  Network calls
and sleeps performed by the lifecycle driver are recorded as an explicit
`Effect` trace.
-/

/-- `string.hexdigits` from the Python standard library. -/
def hexdigits : List Char := "0123456789abcdefABCDEF".data

/-- `string.hexdigits.lower()[:16]` — the alphabet used by
`generate_random_hex` (`utils.py` line 6). -/
def hex_chars : List Char := (hexdigits.map Char.toLower).take 16

/-- `generate_random_hex(length)` (`utils.py` lines 5-7).  Each
`random.choice(hex_chars)` is modelled by an oracle `choice : Nat → Fin 16`
giving the index picked at each position (the default of `getD` is never
used: `hex_chars` has length 16). -/
def generate_random_hex (choice : Nat → Fin 16) (length : Nat) : List Char :=
  (List.range length).map fun i => hex_chars.getD (choice i).val 'x'

/-- Result of `parse_api_key_string` (`workflow/__init__.py` lines 12-16). -/
structure ParsedApiKey where
  consumerId : List Char
  apiKey : List Char
deriving DecidableEq, Repr

/-- Python `combined_key.split("#", 1)` restricted to the first-hash split:
returns `some (before, after)` when a `'#'` occurs, `none` otherwise. -/
def splitOnceHash : List Char → Option (List Char × List Char)
  | [] => none
  | c :: cs =>
    if c = '#' then some ([], cs)
    else (splitOnceHash cs).map fun p => (c :: p.1, p.2)

/-- `parse_api_key_string(combined_key)` (`workflow/__init__.py` lines 12-16):
split on the first `'#'` when present, otherwise consumerId is empty and the
whole string is the apiKey. -/
def parse_api_key_string (combined_key : List Char) : ParsedApiKey :=
  match splitOnceHash combined_key with
  | some p => { consumerId := p.1, apiKey := p.2 }
  | none => { consumerId := [], apiKey := combined_key }

/-- Python `x or y` for an `Optional[str]` field: `None` and `""` are falsy
and select the default `y`. -/
def pyOrStr (x : Option (List Char)) (y : List Char) : List Char :=
  match x with
  | none => y
  | some s => if s = [] then y else s

/-- Python truthiness of an `Optional[str]`: truthy iff present and nonempty
(`if task.workflow_id:` in `create_task`). -/
def truthyStr : Option (List Char) → Bool
  | none => false
  | some s => !s.isEmpty

/-- Python truthiness of an `Optional[int]`: truthy iff present and nonzero
(`if task.timeout_seconds:` in `create_task`). -/
def truthyInt : Option Int → Bool
  | none => false
  | some n => n != 0

/-- The shared fields of `WorkflowTask` (`workflow/__init__.py` lines 33-39)
plus the variant-specific data (prompt, image reference, dimensions, steps,
seed, …) abstracted as one `task_details` component of type `α`, since
`Workflow.create_task` never inspects or modifies it. -/
structure WorkflowTask (α : Type) where
  consumerId : Option (List Char)
  job_id_prefix : Option (List Char)
  timeout_seconds : Option Int
  workflow_id : Option (List Char)
  apiKey : Option (List Char)
  task_details : α
deriving DecidableEq, Repr

/-- The job id composed by `Workflow.create_task` (lines 197-199):
`job_id_prefix = task.job_id_prefix or "sdk-workflow"`, then
`f"{job_id_prefix}-{generate_random_hex(10)}"`. -/
def create_task_job_id {α : Type} (t : WorkflowTask α) (choice : Nat → Fin 16) :
    List Char :=
  pyOrStr t.job_id_prefix ("sdk-workflow".data) ++ '-' :: generate_random_hex choice 10

/-- The mutation `create_task` performs on its task argument (lines 201-203):
`task.consumerId = task.consumerId or self.defaultConsumerId` and
`task.apiKey = task.apiKey or self.defaultApiKey`. -/
def create_task_apply_defaults {α : Type} (t : WorkflowTask α)
    (defaultConsumerId defaultApiKey : List Char) : WorkflowTask α :=
  { t with
    consumerId := some (pyOrStr t.consumerId defaultConsumerId)
    apiKey := some (pyOrStr t.apiKey defaultApiKey) }

/-- The keys of the JSON body sent to `task_create` (lines 205-216): the
dict literal contributes `job_id`, `task_type`, `consumer_id`, `apiKey` and,
via `**task.task_details`, `parameters`; then `workflow_id` and
`timeout_seconds` are appended only when the corresponding field is truthy. -/
def create_task_wire_keys {α : Type} (t : WorkflowTask α) : List (List Char) :=
  let base := ["job_id".data, "task_type".data, "consumer_id".data,
    "apiKey".data, "parameters".data]
  let withWf :=
    if truthyStr t.workflow_id then base ++ ["workflow_id".data] else base
  if truthyInt t.timeout_seconds then withWf ++ ["timeout_seconds".data]
  else withWf

/-- Constructor options of `Text2VideoTask` (lines 108-116). -/
structure Text2VideoOptions where
  prompt : List Char
  width : Option Int
  height : Option Int
  length : Option Int
  steps : Option Int
  seed : Option Int
  fps : Option Int
  quality : Option Int
deriving DecidableEq, Repr

/-- Fields set by `Text2VideoTask.__init__` (lines 119-131). -/
structure Text2VideoFields where
  prompt : List Char
  width : Int
  height : Int
  length : Int
  steps : Int
  seed : Int
  fps : Int
  quality : Int
deriving DecidableEq, Repr

/-- The default seed expression of `Text2VideoTask.__init__` (lines 127-129):
`int.from_bytes(Random().randbytes(8), "big") % (2**53 - 1)`, with the eight
random bytes modelled by the oracle value `randBytes : Nat`. -/
def text2video_default_seed (randBytes : Nat) : Int :=
  ((randBytes % (2 ^ 53 - 1) : Nat) : Int)

/-- `Text2VideoTask.__init__` (lines 119-131): every numeric option defaults,
and the seed defaults to `text2video_default_seed`. -/
def text2video_init (opts : Text2VideoOptions) (randBytes : Nat) :
    Text2VideoFields :=
  { prompt := opts.prompt
    width := opts.width.getD 848
    height := opts.height.getD 480
    length := opts.length.getD 37
    steps := opts.steps.getD 30
    seed :=
      match opts.seed with
      | some s => s
      | none => text2video_default_seed randBytes
    fps := opts.fps.getD 24
    quality := opts.quality.getD 80 }

/-- `Number.MAX_SAFE_INTEGER` as hardcoded in `images/__init__.py` line 69. -/
def maxSafeInteger : Int := 9007199254740991

/-- The seed placed into the `submit_job` payload by `Images.generate`
(`images/__init__.py` lines 67-71): reduced modulo `maxSafeInteger` only when
it strictly exceeds it. -/
def images_generate_seed (seed : Int) : Int :=
  if seed > maxSafeInteger then seed % maxSafeInteger else seed

/-- A response of the `task_result_query` endpoint
(`WorkflowTaskResult`, `workflow/__init__.py` lines 153-156). -/
structure WorkflowTaskResult where
  task_id : List Char
  status : List Char
  result : Option (List Char)
deriving DecidableEq, Repr

/-- The observable actions of the workflow lifecycle driver: the four
network calls and the fixed-interval sleep.  The duration carried by `sleep`
is in milliseconds: `asyncio.sleep(interval / 1000)` suspends for
`interval / 1000` seconds, i.e. `interval` milliseconds. -/
inductive Effect where
  | resourceRequest
  | createTask
  | query (k : Nat)
  | sleep (ms : Int)
  | cancelTask
deriving DecidableEq, Repr

/-- Environment of one polling run: `results k` is the response to the k-th
`query_task_result` call, `checkClock k` the millisecond reading of
`asyncio.get_event_loop().time() * 1000` at the elapsed-time check that
follows the k-th query, and `startTime` the reading recorded on line 232. -/
structure PollEnv where
  results : Nat → WorkflowTaskResult
  checkClock : Nat → Int
  startTime : Int

/-- Outcomes of the polling loop: a returned result, the raised
`Exception("Timeout waiting for task result")`, or still polling after the
given number of iterations (the fuel bound; the Python loop is unbounded). -/
inductive PollOutcome where
  | completed (r : WorkflowTaskResult)
  | timedOut
  | stillPolling
deriving DecidableEq, Repr

/-- The `while True` loop of `execute_workflow_and_wait_for_result`
(`workflow/__init__.py` lines 234-242), from query index `k` with `fuel`
iterations allowed: query; return the result if its status is `finished` or
`failed`; raise Timeout if elapsed time strictly exceeds `timeout`;
otherwise sleep `interval` milliseconds and loop.  Returns the outcome
together with the trace of queries and sleeps, in order. -/
def pollLoop (env : PollEnv) (timeout interval : Int) :
    Nat → Nat → PollOutcome × List Effect
  | _, 0 => (.stillPolling, [])
  | k, fuel + 1 =>
    let r := env.results k
    if r.status = "finished".data ∨ r.status = "failed".data then
      (.completed r, [.query k])
    else if env.checkClock k - env.startTime > timeout then
      (.timedOut, [.query k])
    else
      let rest := pollLoop env timeout interval (k + 1) fuel
      (rest.1, .query k :: .sleep interval :: rest.2)

/-- Modelled from the spec: the polling algorithm as SPECIFIED in §4.4
("otherwise sleep `intervalMs` and re-check elapsed wall-clock time against
`timeoutMs`"), i.e. with the sleep BEFORE the elapsed-time re-check, so a
timeout abort is always preceded by a sleep.  Used only to compare the
specified ordering against `pollLoop`, which embeds the source. -/
def pollLoopSpecOrder (env : PollEnv) (timeout interval : Int) :
    Nat → Nat → PollOutcome × List Effect
  | _, 0 => (.stillPolling, [])
  | k, fuel + 1 =>
    let r := env.results k
    if r.status = "finished".data ∨ r.status = "failed".data then
      (.completed r, [.query k])
    else if env.checkClock k - env.startTime > timeout then
      (.timedOut, [.query k, .sleep interval])
    else
      let rest := pollLoopSpecOrder env timeout interval (k + 1) fuel
      (rest.1, .query k :: .sleep interval :: rest.2)

/-- `execute_workflow_and_wait_for_result` (lines 225-242): reject
`interval < 1000` before anything else; otherwise `execute_workflow` issues
the `resource_request` and `task_create` calls and the loop starts.
`.error` carries the message of the raised configuration exception. -/
def execute_workflow_and_wait_for_result (env : PollEnv)
    (timeout interval : Int) (fuel : Nat) :
    Except (List Char) PollOutcome × List Effect :=
  if interval < 1000 then
    (.error ("Interval should be more than 1000 (1 second)".data), [])
  else
    let p := pollLoop env timeout interval 0 fuel
    (.ok p.1, .resourceRequest :: .createTask :: p.2)

/-- The trace of a run that polls indices `j, j+1, …, j+n` and returns on
the last query: a sleep of `interval` milliseconds separates each pair of
consecutive queries, and no sleep follows the final query. -/
def runTrace (interval : Int) : Nat → Nat → List Effect
  | j, 0 => [.query j]
  | j, n + 1 => .query j :: .sleep interval :: runTrace interval (j + 1) n

/-! ## Helper lemmas -/

theorem splitOnceHash_eq_none {s : List Char} :
    splitOnceHash s = none ↔ '#' ∉ s := by
  induction s with
  | nil => simp [splitOnceHash]
  | cons c cs ih =>
    by_cases hc : c = '#'
    · subst hc; simp [splitOnceHash]
    · simp [splitOnceHash, hc, Option.map_eq_none', ih, Ne.symm hc]

theorem splitOnceHash_eq_some {s a b : List Char}
    (h : splitOnceHash s = some (a, b)) :
    a ++ '#' :: b = s ∧ '#' ∉ a := by
  induction s generalizing a b with
  | nil => simp [splitOnceHash] at h
  | cons c cs ih =>
    by_cases hc : c = '#'
    · subst hc
      simp [splitOnceHash] at h
      obtain ⟨rfl, rfl⟩ := h
      simp
    · rw [splitOnceHash, if_neg hc] at h
      rcases hq : splitOnceHash cs with - | q
      · rw [hq] at h; simp at h
      · rw [hq, Option.map_some'] at h
        have h' : (c :: q.1, q.2) = (a, b) := Option.some.inj h
        rw [Prod.ext_iff] at h'
        obtain ⟨ha, hb⟩ := h'
        subst ha; subst hb
        obtain ⟨ih1, ih2⟩ := ih (a := q.1) (b := q.2) (by rw [hq])
        refine ⟨by simpa using ih1, ?_⟩
        intro hmem
        rcases List.mem_cons.mp hmem with h9 | h9
        · exact hc h9.symm
        · exact ih2 h9

theorem hex_chars_eq : hex_chars = "0123456789abcdef".data := by decide

theorem generate_random_hex_length (choice : Nat → Fin 16) (n : Nat) :
    (generate_random_hex choice n).length = n := by
  simp [generate_random_hex]

theorem generate_random_hex_mem (choice : Nat → Fin 16) (n : Nat) :
    ∀ c ∈ generate_random_hex choice n, c ∈ hex_chars := by
  intro c hc
  simp only [generate_random_hex, List.mem_map, List.mem_range] at hc
  obtain ⟨i, -, rfl⟩ := hc
  have h16 : ∀ j : Fin 16, hex_chars.getD j.val 'x' ∈ hex_chars := by decide
  exact h16 (choice i)

/-! ## Claim theorems -/

/-- C5: `parse_api_key_string` splits on the first `'#'`: when the separator
occurs, the consumerId is the hash-free part before the first `'#'` and the
apiKey everything after it, so `consumerId ++ "#" ++ apiKey` reconstructs the
input; when no `'#'` occurs, the consumerId is empty and the apiKey is the
whole input. -/
theorem parse_api_key_string_spec (s : List Char) :
    ('#' ∈ s →
      (parse_api_key_string s).consumerId ++
          '#' :: (parse_api_key_string s).apiKey = s ∧
        '#' ∉ (parse_api_key_string s).consumerId) ∧
    ('#' ∉ s →
      (parse_api_key_string s).consumerId = [] ∧
        (parse_api_key_string s).apiKey = s) := by
  rcases h : splitOnceHash s with - | p
  · have hmem : '#' ∉ s := splitOnceHash_eq_none.mp h
    refine ⟨fun hc => absurd hc hmem, fun _ => ?_⟩
    simp [parse_api_key_string, h]
  · obtain ⟨h1, h2⟩ := splitOnceHash_eq_some (a := p.1) (b := p.2) (by simpa using h)
    constructor
    · intro _
      simp only [parse_api_key_string, h]
      exact ⟨h1, h2⟩
    · intro hmem
      exact absurd (splitOnceHash_eq_none.mpr hmem) (by simp [h])

theorem parse_api_key_string_spec_witness :
    ((parse_api_key_string ("ab#cd#e".data)).consumerId ++
        '#' :: (parse_api_key_string ("ab#cd#e".data)).apiKey = "ab#cd#e".data ∧
      '#' ∉ (parse_api_key_string ("ab#cd#e".data)).consumerId) ∧
    ((parse_api_key_string ("abcde".data)).consumerId = [] ∧
      (parse_api_key_string ("abcde".data)).apiKey = "abcde".data) :=
  ⟨(parse_api_key_string_spec ("ab#cd#e".data)).1 (by decide),
   (parse_api_key_string_spec ("abcde".data)).2 (by decide)⟩

def choiceZero : Nat → Fin 16 := fun _ => ⟨0, by decide⟩

def taskEmptyJobId : WorkflowTask Unit :=
  { consumerId := none, job_id_prefix := some [], timeout_seconds := none,
    workflow_id := none, apiKey := none, task_details := () }

/-- C6 counterexample: for a descriptor whose job-id prefix is present as the
empty string, the claim predicts a job id of the form `"" ++ "-" ++ suffix`,
i.e. starting with `'-'` — but line 197's `task.job_id_prefix or
"sdk-workflow"` also replaces the present-but-empty prefix, so the submitted
job id starts with `'s'` (`sdk-workflow-…`), falsifying "defaulting … when
absent". -/
theorem create_task_job_id_counterexample :
    taskEmptyJobId.job_id_prefix = some [] ∧
    (create_task_job_id taskEmptyJobId choiceZero).head? ≠ some '-' ∧
    create_task_job_id taskEmptyJobId choiceZero =
      "sdk-workflow-0000000000".data := by
  decide

/-- C6 (amended): the job id submitted by `create_task` is the task's job-id
prefix — defaulting to `"sdk-workflow"` when the field is falsy, i.e. absent
OR the empty string, per Python `or` — followed by `'-'` and a random suffix
of exactly 10 characters drawn from the lowercase hex alphabet; with the
default prefix it matches `sdk-workflow-[0-9a-f]{10}`. -/
theorem create_task_job_id_format {α : Type} (t : WorkflowTask α)
    (choice : Nat → Fin 16) :
    (∃ suffix, create_task_job_id t choice =
        pyOrStr t.job_id_prefix ("sdk-workflow".data) ++ '-' :: suffix ∧
      suffix.length = 10 ∧ ∀ c ∈ suffix, c ∈ "0123456789abcdef".data) ∧
    ( t.job_id_prefix = none →
      ∃ suffix, create_task_job_id t choice = "sdk-workflow-".data ++ suffix ∧
        suffix.length = 10 ∧ ∀ c ∈ suffix, c ∈ "0123456789abcdef".data) := by
  have hmem : ∀ c ∈ generate_random_hex choice 10, c ∈ "0123456789abcdef".data := by
    intro c hc
    have := generate_random_hex_mem choice 10 c hc
    rwa [hex_chars_eq] at this
  constructor
  · exact ⟨generate_random_hex choice 10, rfl,
      generate_random_hex_length choice 10, hmem⟩
  · intro hnone
    refine ⟨generate_random_hex choice 10, ?_,
      generate_random_hex_length choice 10, hmem⟩
    simp only [create_task_job_id, hnone, pyOrStr]
    rfl

def taskNoOptions : WorkflowTask Unit :=
  { consumerId := none, job_id_prefix := none, timeout_seconds := none,
    workflow_id := none, apiKey := none, task_details := () }

theorem create_task_job_id_format_witness :
    ∃ suffix, create_task_job_id taskNoOptions choiceZero =
        "sdk-workflow-".data ++ suffix ∧
      suffix.length = 10 ∧ ∀ c ∈ suffix, c ∈ "0123456789abcdef".data :=
  (create_task_job_id_format taskNoOptions choiceZero).2 rfl

/-- C7: a `Text2VideoTask` constructed without a seed option gets a defaulted
seed that, for every value of the eight random bytes, lies in the half-open
interval `[0, 2^53 - 1)`; a seed supplied explicitly is used unchanged. -/
theorem text2video_seed_spec :
    (∀ (opts : Text2VideoOptions) (randBytes : Nat), opts.seed = none →
      0 ≤ (text2video_init opts randBytes).seed ∧
        (text2video_init opts randBytes).seed < 2 ^ 53 - 1) ∧
    (∀ (opts : Text2VideoOptions) (randBytes : Nat) (s : Int),
      opts.seed = some s → (text2video_init opts randBytes).seed = s) := by
  constructor
  · intro opts randBytes h
    have hseed : (text2video_init opts randBytes).seed =
        text2video_default_seed randBytes := by
      simp [text2video_init, h]
    rw [hseed]
    have hmod : randBytes % (2 ^ 53 - 1) < 2 ^ 53 - 1 :=
      Nat.mod_lt _ (by norm_num)
    constructor
    · exact Int.natCast_nonneg _
    · unfold text2video_default_seed
      have : ((randBytes % (2 ^ 53 - 1) : Nat) : Int) <
          ((2 ^ 53 - 1 : Nat) : Int) := by exact_mod_cast hmod
      calc ((randBytes % (2 ^ 53 - 1) : Nat) : Int)
          < ((2 ^ 53 - 1 : Nat) : Int) := this
        _ = 2 ^ 53 - 1 := by norm_num
  · intro opts randBytes s h
    simp [text2video_init, h]

def t2vOptsNoSeed : Text2VideoOptions :=
  { prompt := "a cat".data, width := none, height := none, length := none,
    steps := none, seed := none, fps := none, quality := none }

def t2vOptsSeed42 : Text2VideoOptions :=
  { prompt := "a cat".data, width := none, height := none, length := none,
    steps := none, seed := some 42, fps := none, quality := none }

theorem text2video_seed_spec_witness :
    (0 ≤ (text2video_init t2vOptsNoSeed 123456789).seed ∧
      (text2video_init t2vOptsNoSeed 123456789).seed < 2 ^ 53 - 1) ∧
    (text2video_init t2vOptsSeed42 123456789).seed = 42 :=
  ⟨text2video_seed_spec.1 t2vOptsNoSeed 123456789 rfl,
   text2video_seed_spec.2 t2vOptsSeed42 123456789 42 rfl⟩

/-- C8 counterexample: at the supplied seed `9007199254740991` (equal to
`Number.MAX_SAFE_INTEGER`) the transmitted seed is neither the supplied seed
reduced modulo `9007199254740991` nor strictly less than `9007199254740991`,
so the claim fails as stated. -/
theorem images_generate_seed_counterexample :
    ¬(images_generate_seed 9007199254740991 =
        9007199254740991 % 9007199254740991 ∧
      images_generate_seed 9007199254740991 < 9007199254740991) := by
  decide

/-- C8 (amended): `Images.generate` reduces a supplied seed modulo
`9007199254740991` only when it strictly exceeds that bound, transmits it
unchanged otherwise, and the transmitted seed is therefore always at most
(not strictly below) `9007199254740991`. -/
theorem images_generate_seed_spec (seed : Int) :
    (seed > maxSafeInteger →
      images_generate_seed seed = seed % maxSafeInteger) ∧
    (seed ≤ maxSafeInteger → images_generate_seed seed = seed) ∧
    images_generate_seed seed ≤ maxSafeInteger := by
  refine ⟨fun h => by simp [images_generate_seed, h],
    fun h => by simp [images_generate_seed, not_lt.mpr h], ?_⟩
  by_cases h : seed > maxSafeInteger
  · rw [images_generate_seed, if_pos h]
    have : seed % maxSafeInteger < maxSafeInteger :=
      Int.emod_lt_of_pos seed (by norm_num [maxSafeInteger])
    exact le_of_lt this
  · rw [images_generate_seed, if_neg h]
    exact not_lt.mp h

theorem images_generate_seed_spec_witness :
    images_generate_seed 9007199254741000 =
        9007199254741000 % maxSafeInteger ∧
    images_generate_seed 5 = 5 :=
  ⟨(images_generate_seed_spec 9007199254741000).1 (by decide),
   (images_generate_seed_spec 5).2.1 (by decide)⟩

def taskEmptyConsumer : WorkflowTask Unit :=
  { consumerId := some [], job_id_prefix := none, timeout_seconds := none,
    workflow_id := none, apiKey := none, task_details := () }

/-- C9 counterexample: a descriptor whose consumerId is present (as the empty
string) does NOT keep its value across `create_task`'s defaulting step — the
session default replaces it, so defaults are not applied "exactly when absent". -/
theorem create_task_defaults_counterexample :
    taskEmptyConsumer.consumerId.isSome = true ∧
    (create_task_apply_defaults taskEmptyConsumer ("cid".data)
        ("key".data)).consumerId ≠ taskEmptyConsumer.consumerId := by
  decide

/-- C9 (amended): `create_task` modifies at most the descriptor's consumerId
and apiKey, setting each to the session default exactly when it is falsy
(absent or the empty string) and keeping any nonempty present value; every
other descriptor field, including the variant-specific task-details data, is
unchanged. -/
theorem create_task_apply_defaults_spec {α : Type} (t : WorkflowTask α)
    (dCid dKey : List Char) :
    ((t.consumerId = none ∨ t.consumerId = some []) →
      (create_task_apply_defaults t dCid dKey).consumerId = some dCid) ∧
    (∀ s, t.consumerId = some s → s ≠ [] →
      (create_task_apply_defaults t dCid dKey).consumerId = some s) ∧
    ((t.apiKey = none ∨ t.apiKey = some []) →
      (create_task_apply_defaults t dCid dKey).apiKey = some dKey) ∧
    (∀ s, t.apiKey = some s → s ≠ [] →
      (create_task_apply_defaults t dCid dKey).apiKey = some s) ∧
    WorkflowTask.job_id_prefix (create_task_apply_defaults t dCid dKey) =
      t.job_id_prefix ∧
    (create_task_apply_defaults t dCid dKey).timeout_seconds =
      t.timeout_seconds ∧
    (create_task_apply_defaults t dCid dKey).workflow_id = t.workflow_id ∧
    (create_task_apply_defaults t dCid dKey).task_details = t.task_details := by
  refine ⟨?_, ?_, ?_, ?_, rfl, rfl, rfl, rfl⟩
  · rintro (h | h) <;> simp [create_task_apply_defaults, pyOrStr, h]
  · intro s hs hne
    simp [create_task_apply_defaults, pyOrStr, hs, hne]
  · rintro (h | h) <;> simp [create_task_apply_defaults, pyOrStr, h]
  · intro s hs hne
    simp [create_task_apply_defaults, pyOrStr, hs, hne]

def taskPresentConsumer : WorkflowTask Unit :=
  { consumerId := some ("a".data), job_id_prefix := none,
    timeout_seconds := none, workflow_id := none, apiKey := none,
    task_details := () }

theorem create_task_apply_defaults_spec_witness :
    (create_task_apply_defaults taskPresentConsumer ("c".data)
        ("k".data)).consumerId = some ("a".data) ∧
    (create_task_apply_defaults taskPresentConsumer ("c".data)
        ("k".data)).apiKey = some ("k".data) :=
  ⟨(create_task_apply_defaults_spec taskPresentConsumer ("c".data)
      ("k".data)).2.1 ("a".data) rfl (by decide),
   (create_task_apply_defaults_spec taskPresentConsumer ("c".data)
      ("k".data)).2.2.1 (Or.inl rfl)⟩

/-- C10: the `workflow_id` and `timeout_seconds` keys appear in the
`task_create` wire payload iff the corresponding field is truthy; a field set
to `0` or to the empty string yields exactly the payload of an unset field. -/
theorem create_task_wire_keys_truthy {α : Type} (t : WorkflowTask α) :
    ("workflow_id".data ∈ create_task_wire_keys t ↔
      truthyStr t.workflow_id = true) ∧
    ("timeout_seconds".data ∈ create_task_wire_keys t ↔
      truthyInt t.timeout_seconds = true) ∧
    create_task_wire_keys { t with workflow_id := some [] } =
      create_task_wire_keys { t with workflow_id := none } ∧
    create_task_wire_keys { t with timeout_seconds := some 0 } =
      create_task_wire_keys { t with timeout_seconds := none } := by
  have e1 : truthyStr (some ([] : List Char)) = false := rfl
  have e2 : truthyStr none = false := rfl
  have e3 : truthyInt (some 0) = false := rfl
  have e4 : truthyInt none = false := rfl
  refine ⟨?_, ?_, ?_, ?_⟩
  · rcases hw : truthyStr t.workflow_id <;>
      rcases hts : truthyInt t.timeout_seconds <;>
        simp [create_task_wire_keys, hw, hts]
  · rcases hw : truthyStr t.workflow_id <;>
      rcases hts : truthyInt t.timeout_seconds <;>
        simp [create_task_wire_keys, hw, hts]
  · simp [create_task_wire_keys, e1, e2]
  · simp [create_task_wire_keys, e3, e4]

def isQueryEffect : Effect → Bool
  | .query _ => true
  | _ => false

def isSleepEffect : Effect → Bool
  | .sleep _ => true
  | _ => false

theorem runTrace_count_query (interval : Int) (N j : Nat) :
    (runTrace interval j N).countP isQueryEffect = N + 1 := by
  induction N generalizing j with
  | zero => simp [runTrace, isQueryEffect]
  | succ N ih => simp [runTrace, List.countP_cons, isQueryEffect, isSleepEffect, ih]

theorem runTrace_count_sleep (interval : Int) (N j : Nat) :
    (runTrace interval j N).countP isSleepEffect = N := by
  induction N generalizing j with
  | zero => simp [runTrace, isSleepEffect]
  | succ N ih => simp [runTrace, List.countP_cons, isQueryEffect, isSleepEffect, ih]

theorem nonterminal_status {r : WorkflowTaskResult}
    (h : r.status = "running".data ∨ r.status = "waiting".data ∨
      r.status = "canceled".data) :
    ¬(r.status = "finished".data ∨ r.status = "failed".data) := by
  rcases h with h | h | h <;> rw [h] <;> decide

theorem pollLoop_run (env : PollEnv) (timeout interval : Int) (N j : Nat)
    (hnt : ∀ k, k < N → (env.results (j + k)).status = "running".data ∨
      (env.results (j + k)).status = "waiting".data)
    (hfin : (env.results (j + N)).status = "finished".data)
    (ht : ∀ k, k < N → ¬ env.checkClock (j + k) - env.startTime > timeout) :
    pollLoop env timeout interval j (N + 1) =
      (.completed (env.results (j + N)), runTrace interval j N) := by
  induction N generalizing j with
  | zero =>
    have hfin0 : (env.results j).status = "finished".data := by simpa using hfin
    simp [pollLoop, runTrace, hfin0]
  | succ N ih =>
    have h0 : (env.results j).status = "running".data ∨
        (env.results j).status = "waiting".data := by
      simpa using hnt 0 (Nat.succ_pos N)
    have hne := nonterminal_status (Or.imp_right Or.inl h0)
    have ht0 : ¬ env.checkClock j - env.startTime > timeout := by
      simpa using ht 0 (Nat.succ_pos N)
    have ihe := ih (j + 1)
      (fun k hk => by
        have := hnt (k + 1) (by omega)
        rwa [show j + (k + 1) = j + 1 + k by omega] at this)
      (by rwa [show j + 1 + N = j + (N + 1) by omega])
      (fun k hk => by
        have := ht (k + 1) (by omega)
        rwa [show j + (k + 1) = j + 1 + k by omega] at this)
    rw [show N + 1 + 1 = (N + 1) + 1 from rfl, pollLoop]
    simp only [hne, if_false, ht0, ite_false]
    rw [ihe]
    simp only [runTrace]
    rw [show j + (N + 1) = j + 1 + N by omega]

theorem cancel_not_in_pollLoop (env : PollEnv) (timeout interval : Int) :
    ∀ fuel k, Effect.cancelTask ∉ (pollLoop env timeout interval k fuel).2 := by
  intro fuel
  induction fuel with
  | zero => intro k; simp [pollLoop]
  | succ fuel ih =>
    intro k
    by_cases h1 : (env.results k).status = "finished".data ∨
        (env.results k).status = "failed".data
    · simp [pollLoop, h1]
    · by_cases h2 : env.checkClock k - env.startTime > timeout
      · simp [pollLoop, h1, h2]
      · simp only [pollLoop, h1, if_false, h2, ite_false, List.mem_cons]
        push_neg
        exact ⟨by simp, by simp, ih (k + 1)⟩

def runningResult : WorkflowTaskResult :=
  { task_id := "t".data, status := "running".data, result := none }

def finishedResult : WorkflowTaskResult :=
  { task_id := "t".data, status := "finished".data, result := none }

def canceledResult : WorkflowTaskResult :=
  { task_id := "t".data, status := "canceled".data, result := none }

/-- Environment in which every query answers `canceled` and the clock never
advances past the deadline. -/
def envAlwaysCanceled : PollEnv :=
  { results := fun _ => canceledResult, checkClock := fun _ => 0,
    startTime := 0 }

/-- Environment in which every query answers `running` and already the first
elapsed-time check reads 5000 ms past the start. -/
def envAlwaysRunning : PollEnv :=
  { results := fun _ => runningResult, checkClock := fun _ => 5000,
    startTime := 0 }

/-- Environment answering `running` twice and then `finished`, well within
any realistic deadline. -/
def envTwoRunsThenDone : PollEnv :=
  { results := fun k => if k < 2 then runningResult else finishedResult,
    checkClock := fun _ => 100, startTime := 0 }

/-- C1 counterexample: with every query answering `canceled` within the
deadline, the loop does NOT return the canceled result after the first query
— it keeps polling (`canceled` is absent from the terminal-status test on
line 236). -/
theorem canceled_status_counterexample :
    pollLoop envAlwaysCanceled 300000 10000 0 2 ≠
      (.completed canceledResult, [.query 0]) := by
  decide

/-- C1 (amended): a `canceled` status observed within the deadline is NOT
terminal for the polling loop: the driver sleeps and issues the next query
exactly as for `running`/`waiting`, so a canceled task surfaces to the caller
only through the timeout (or a later `finished`/`failed` status). -/
theorem canceled_status_keeps_polling (env : PollEnv)
    (timeout interval : Int) (k fuel : Nat)
    (hc : (env.results k).status = "canceled".data)
    (ht : ¬ env.checkClock k - env.startTime > timeout) :
    pollLoop env timeout interval k (fuel + 1) =
      ((pollLoop env timeout interval (k + 1) fuel).1,
        .query k :: .sleep interval ::
          (pollLoop env timeout interval (k + 1) fuel).2) := by
  have hne := nonterminal_status (r := env.results k) (Or.inr (Or.inr hc))
  simp [pollLoop, hne, ht]

theorem canceled_status_keeps_polling_witness :
    pollLoop envAlwaysCanceled 300000 10000 0 2 =
      ((pollLoop envAlwaysCanceled 300000 10000 1 1).1,
        .query 0 :: .sleep 10000 ::
          (pollLoop envAlwaysCanceled 300000 10000 1 1).2) :=
  canceled_status_keeps_polling envAlwaysCanceled 300000 10000 0 1 rfl
    (by decide)

/-- C2: for every interval strictly below 1000 ms,
`execute_workflow_and_wait_for_result` fails immediately with the
configuration error and performs no effect at all — in particular neither a
`resource_request` nor a `task_create` call is issued. -/
theorem interval_below_min_rejected (env : PollEnv)
    (timeout interval : Int) (fuel : Nat) (h : interval < 1000) :
    execute_workflow_and_wait_for_result env timeout interval fuel =
      (.error ("Interval should be more than 1000 (1 second)".data), []) ∧
    Effect.resourceRequest ∉
      (execute_workflow_and_wait_for_result env timeout interval fuel).2 ∧
    Effect.createTask ∉
      (execute_workflow_and_wait_for_result env timeout interval fuel).2 := by
  refine ⟨?_, ?_, ?_⟩ <;> simp [execute_workflow_and_wait_for_result, h]

theorem interval_below_min_rejected_witness :
    execute_workflow_and_wait_for_result envAlwaysCanceled 300000 999 5 =
      (.error ("Interval should be more than 1000 (1 second)".data), []) ∧
    Effect.resourceRequest ∉
      (execute_workflow_and_wait_for_result envAlwaysCanceled 300000 999 5).2 ∧
    Effect.createTask ∉
      (execute_workflow_and_wait_for_result envAlwaysCanceled 300000 999 5).2 :=
  interval_below_min_rejected envAlwaysCanceled 300000 999 5 (by decide)

/-- C3 counterexample: the loop embedded from the source (`pollLoop`, which
re-checks elapsed time BEFORE the sleep) is observably different from the
algorithm as specified (`pollLoopSpecOrder`, sleep BEFORE the re-check): when
the first check already exceeds the deadline, the source's loop times out
with no sleep after the final query, the specified one after a sleep. -/
theorem poll_order_counterexample :
    pollLoop envAlwaysRunning 1000 1000 0 3 ≠
      pollLoopSpecOrder envAlwaysRunning 1000 1000 0 3 := by
  decide

/-- C3 (amended): for N non-terminal (`running`/`waiting`) responses followed
by a `finished` response, all checks within the deadline, the loop issues
exactly N+1 queries with exactly one sleep of the polling interval between
each pair of consecutive queries and returns the finished result; the
elapsed-time re-check happens after each non-terminal query and BEFORE the
sleep that follows it. -/
theorem poll_loop_n_plus_one_queries (env : PollEnv)
    (timeout interval : Int) (N : Nat)
    (hnt : ∀ k, k < N → (env.results k).status = "running".data ∨
      (env.results k).status = "waiting".data)
    (hfin : (env.results N).status = "finished".data)
    (ht : ∀ k, k < N → ¬ env.checkClock k - env.startTime > timeout) :
    pollLoop env timeout interval 0 (N + 1) =
      (.completed (env.results N), runTrace interval 0 N) ∧
    (runTrace interval 0 N).countP isQueryEffect = N + 1 ∧
    (runTrace interval 0 N).countP isSleepEffect = N := by
  refine ⟨?_, runTrace_count_query interval N 0, runTrace_count_sleep interval N 0⟩
  have h := pollLoop_run env timeout interval N 0
    (fun k hk => by simpa using hnt k hk) (by simpa using hfin)
    (fun k hk => by simpa using ht k hk)
  simpa using h

theorem poll_loop_n_plus_one_queries_witness :
    (pollLoop envTwoRunsThenDone 300000 1000 0 3 =
      (.completed (envTwoRunsThenDone.results 2), runTrace 1000 0 2) ∧
    (runTrace 1000 0 2).countP isQueryEffect = 3 ∧
    (runTrace 1000 0 2).countP isSleepEffect = 2) :=
  poll_loop_n_plus_one_queries envTwoRunsThenDone 300000 1000 2
    (by decide) (by decide) (by decide)

/-- C4: whenever the polling loop aborts with the Timeout error, some
elapsed-time check read a clock value strictly exceeding the timeout, and the
trace ends with the query that the aborting check followed (no sleep, and in
particular no further action, after it); moreover the driver never issues a
`task_cancel` call, whatever the run's outcome — a timed-out remote task is
left running. -/
theorem timeout_strictly_exceeds_and_no_cancel :
    (∀ (env : PollEnv) (timeout interval : Int) (k fuel : Nat),
      (pollLoop env timeout interval k fuel).1 = .timedOut →
      ∃ j pre, k ≤ j ∧ env.checkClock j - env.startTime > timeout ∧
        (pollLoop env timeout interval k fuel).2 = pre ++ [.query j]) ∧
    (∀ (env : PollEnv) (timeout interval : Int) (fuel : Nat),
      Effect.cancelTask ∉
        (execute_workflow_and_wait_for_result env timeout interval fuel).2) := by
  constructor
  · intro env timeout interval k fuel
    induction fuel generalizing k with
    | zero => intro h; simp [pollLoop] at h
    | succ fuel ih =>
      intro h
      by_cases h1 : (env.results k).status = "finished".data ∨
          (env.results k).status = "failed".data
      · simp [pollLoop, h1] at h
      · by_cases h2 : env.checkClock k - env.startTime > timeout
        · exact ⟨k, [], le_refl k, h2, by simp [pollLoop, h1, h2]⟩
        · rw [pollLoop] at h
          simp only [h1, if_false, h2, ite_false] at h
          obtain ⟨j, pre, hkj, hcl, htr⟩ := ih (k + 1) h
          refine ⟨j, .query k :: .sleep interval :: pre, by omega, hcl, ?_⟩
          rw [pollLoop]
          simp only [h1, if_false, h2, ite_false]
          simp [htr]
  · intro env timeout interval fuel
    by_cases hi : interval < 1000
    · simp [execute_workflow_and_wait_for_result, hi]
    · simp only [execute_workflow_and_wait_for_result, hi, ite_false,
        List.mem_cons]
      push_neg
      exact ⟨by simp, by simp,
        cancel_not_in_pollLoop env timeout interval fuel 0⟩

theorem timeout_strictly_exceeds_and_no_cancel_witness :
    ∃ j pre, 0 ≤ j ∧
      envAlwaysRunning.checkClock j - envAlwaysRunning.startTime > 1000 ∧
      (pollLoop envAlwaysRunning 1000 1000 0 1).2 = pre ++ [.query j] :=
  timeout_strictly_exceeds_and_no_cancel.1 envAlwaysRunning 1000 1000 0 1
    (by decide)
